import Mathlib

/-!
Verification development for the kopi-challenge debate chatbot.

The embedding models the prompt/context construction and provider layer of
`mirror/modules/utils/openAI_provider.py`, the service layer of
`mirror/modules/services/debate_service.py` and
`mirror/modules/services/ai_service.py`, and the two HTTP post handlers
(`mirror/view_debate.py` and `mirror/api_views.py`).

Text is modelled as `List Char` (Python `str`), so that every operation is a
structurally recursive, kernel-evaluable function.  The relational store is a
pair of lists ordered by creation time.  The external generation service is a
parameter: a function from the two prompts to an `Except` result, so that a
claim can be settled for every possible backend behaviour.
-/

/-- Python strings are modelled as lists of characters. -/
abbrev Str := List Char

/-- Coerce a Lean string literal to the character-list model. -/
def S (s : String) : Str := s.data

/-- The characters Python's argument-less `str.strip()` removes (ASCII range). -/
def isWS (c : Char) : Bool :=
  c = ' ' || c = '\t' || c = '\n' || c = '\r' || c = '\x0b' || c = '\x0c'

/-- Python `s.strip()`: remove leading and trailing whitespace. -/
def pyStrip (s : Str) : Str :=
  ((s.dropWhile isWS).reverse.dropWhile isWS).reverse

/-- Python `pat in s` (substring containment) for a non-empty pattern. -/
def containsSub : Str → Str → Bool
  | [], pat => pat.isEmpty
  | c :: rest, pat => pat.isPrefixOf (c :: rest) || containsSub rest pat

/-- Python `s.split(sep, 1)`: the text before the first occurrence of `sep`,
and, when `sep` occurs, the remainder after it. -/
def splitFirstOn (sep : Char) : Str → Str × Option Str
  | [] => ([], none)
  | c :: rest =>
    if c = sep then ([], some rest)
    else
      match splitFirstOn sep rest with
      | (a, r) => (c :: a, r)

/-- Helper for `replaceAll`, with explicit fuel (one unit per examined
character suffices because every step consumes at least one character). -/
def replaceAllFuel (pat rep : Str) : Nat → Str → Str
  | 0, s => s
  | Nat.succ n, s =>
    match s with
    | [] => []
    | c :: rest =>
      if pat.isPrefixOf (c :: rest) then
        rep ++ replaceAllFuel pat rep n (List.drop (pat.length - 1) rest)
      else c :: replaceAllFuel pat rep n rest

/-- Python `s.replace(pat, rep)`: replace every (leftmost, non-overlapping)
occurrence of a non-empty `pat`. -/
def replaceAll (pat rep s : Str) : Str := replaceAllFuel pat rep s.length s

/-- Python `"\n".join(parts)`. -/
def joinNL : List Str → Str
  | [] => []
  | [p] => p
  | p :: q :: ps => p ++ '\n' :: joinNL (q :: ps)

/-- Python decimal rendering of an integer, `str(i)`. -/
def intToStr (i : Int) : Str :=
  if i < 0 then '-' :: Nat.toDigits 10 i.natAbs else Nat.toDigits 10 i.natAbs

/-- Python `l[-k:]` on a list: for `k = 0` the whole list, otherwise the last
`k` elements (all of them when fewer than `k` exist). -/
def pyLastSlice (k : Nat) (l : List α) : List α :=
  if k = 0 then l else l.drop (l.length - k)

/-- Python `l[:k]` on a list. -/
def pyTakeSlice (k : Nat) (l : List α) : List α := l.take k

/-! ## Error taxonomy

`OpenAIError` in `openAI_provider.py` carries only a message; `Http404` is
raised by `get_object_or_404`; `attributeError` models the Python
`AttributeError` raised by `None.content` in `get_debate`; `validationError`
models the `pydantic.ValidationError` raised when a schema construction
fails re-validation. -/

/-- Errors that can escape the embedded code paths. -/
inductive DebateError where
  | http404 : DebateError
  | openAIError (msg : Str) : DebateError
  | attributeError : DebateError
  | validationError : DebateError
deriving DecidableEq, Repr

deriving instance DecidableEq for Except

/-- Render an error for interpolation into a wrapping `OpenAIError` message. -/
def errText : DebateError → Str
  | .http404 => S "Http404"
  | .openAIError m => m
  | .attributeError => S "AttributeError"
  | .validationError => S "ValidationError"

/-! ## Configuration (`django.conf.settings` as read by the provider)

`getattr(settings, NAME, default)` is modelled by a record holding the values
the provider reads.  `OPENAI_API_KEY` may be absent (`none`) or present; the
Python truthiness test `not api_key` also treats an empty string as absent. -/

/-- The slice of Django settings consumed by `openAI_provider.py`.  Sampling
parameters (temperature, top-p, penalties) are floats that never influence any
computation modelled here and are omitted. -/
structure Settings where
  openai_api_key : Option Str
  testing : Bool
  ai_timeout : Nat
  ai_max_retries : Nat
  openai_model : Str
  ai_max_tokens : Int
deriving DecidableEq, Repr

/-- Python truthiness of the configured key: `not api_key`. -/
def falsyKey : Option Str → Bool
  | none => true
  | some s => s.isEmpty

/-! ## Provider lifecycle (`OpenAIProvider._initialize_openai`,
`get_openai_provider`, `reset_openai_provider`) -/

/-- The state an initialised `OpenAIProvider` carries: the client constructor
arguments and the resolved model name. -/
structure OpenAIClient where
  api_key : Str
  timeout : Nat
  max_retries : Nat
  model : Str
deriving DecidableEq, Repr

/-- `OpenAIProvider._initialize_openai`: validate the credential (with the
`TESTING` escape hatch substituting a placeholder key) and build the client
configuration.  The `import openai` failure mode is an environment condition
outside the repository's code and is not modelled. -/
def initializeOpenai (s : Settings) : Except DebateError OpenAIClient :=
  if falsyKey s.openai_api_key && !s.testing then
    .error (.openAIError (S "OPENAI_API_KEY not configured in settings"))
  else
    let key := if falsyKey s.openai_api_key then S "test-key-for-testing"
               else s.openai_api_key.getD []
    .ok { api_key := key, timeout := s.ai_timeout,
          max_retries := s.ai_max_retries, model := s.openai_model }

/-- `get_openai_provider`: the module-global `_openai_provider` is the first
component of the state; `none` means not yet constructed.  Returns the
provider together with the updated global. -/
def getOpenaiProvider (st : Option OpenAIClient) (s : Settings) :
    Except DebateError (OpenAIClient × Option OpenAIClient) :=
  match st with
  | some p => .ok (p, some p)
  | none =>
    match initializeOpenai s with
    | .error e => .error e
    | .ok p => .ok (p, some p)

/-- `reset_openai_provider`: clear the module-global instance. -/
def resetOpenaiProvider (_st : Option OpenAIClient) : Option OpenAIClient := none

/-! ## Response sanitizer (`OpenAIProvider._post_process_response`) -/

/-- The fixed, case-sensitive role-echo allow-list, in source order. -/
def prefixesToRemove : List Str :=
  [S "AI:", S "Bot:", S "Assistant:", S "Response:", S "YOU:", S "BOT:", S "Kopi:"]

/-- The `for prefix in prefixes_to_remove` loop: each listed label is tested
once, in order, against the current string; on a hit the label is cut off and
the remainder re-stripped. -/
def stripListed : List Str → Str → Str
  | [], s => s
  | p :: rest, s =>
    stripListed rest (if p.isPrefixOf s then pyStrip (s.drop p.length) else s)

/-- `OpenAIProvider._post_process_response`. -/
def postProcessResponse (response : Str) : Except DebateError Str :=
  if response.isEmpty || (pyStrip response).isEmpty then
    .error (.openAIError (S "AI generated an empty response"))
  else
    let cleaned := stripListed prefixesToRemove (pyStrip response)
    if cleaned.isEmpty then
      .error (.openAIError (S "Response became empty after processing"))
    else .ok cleaned

/-! ## Topic/stance extractor (`OpenAIProvider.parse_initial_message`) -/

/-- The deterministic fallback: a generic topic and a truncated echo of the
user's message. -/
def fallbackParse (message : Str) : Str × Str :=
  (S "General Debate", S "I disagree with: " ++ message.take 60 ++ S "...")

/-- The parsing of the extraction reply inside `parse_initial_message`.
`ai_response.split("|", 1)` yields a second half only when a bar is present;
`parts[1]` on a bar-less reply raises `IndexError`, which the enclosing
`except Exception` turns into an `OpenAIError`. -/
def parseReply (message reply : Str) : Except DebateError (Str × Str) :=
  let ai := pyStrip reply
  if containsSub ai (S "TOPIC:") && containsSub ai (S "STANCE:") then
    match splitFirstOn '|' ai with
    | (p0, some p1) =>
      let topic := pyStrip (replaceAll (S "TOPIC:") [] p0)
      let stance := pyStrip (replaceAll (S "STANCE:") [] p1)
      if topic.isEmpty || stance.isEmpty then .ok (fallbackParse message)
      else .ok (topic, stance)
    | (_, none) =>
      .error (.openAIError (S "Failed to parse initial message: list index out of range"))
  else .ok (fallbackParse message)

/-- `OpenAIProvider.parse_initial_message`: the extraction generation call is
a parameter (its reply when it succeeds, its error when it fails); a failed
call is re-raised wrapped in an `OpenAIError`. -/
def parseInitialMessage (message : Str) (callResult : Except DebateError Str) :
    Except DebateError (Str × Str) :=
  match callResult with
  | .error e => .error (.openAIError (S "Failed to parse initial message: " ++ errText e))
  | .ok reply => parseReply message reply

/-! ## Prompt builder (`_build_system_prompt`, `_build_user_prompt`) -/

/-- One windowed turn as the prompt builder consumes it. -/
structure RC where
  role : Str
  content : Str
deriving DecidableEq, Repr

/-- `schemas.DebateContext`: the transient per-request context. -/
structure DebateContext where
  topic : Str
  bot_stance : Str
  last_user_message : Str
  conversation_history : List RC
deriving DecidableEq, Repr

/-- `OpenAIProvider._build_system_prompt`: the fixed persona template,
interpolating only the topic, the stance and `AI_MAX_TOKENS - 100`. -/
def buildSystemPrompt (maxTokens : Int) (topic bot_stance : Str) : Str :=
  joinNL
    [ S "### Persona"
    , S "You are Kopi, a world-champion debater AI. Your persona is confident, articulate, and unshakeable. You are an expert at using rhetoric and creative reasoning to defend a point, no matter how unconventional. You are not a helpful assistant; you are a focused opponent in a debate."
    , S ""
    , S "### Primary Mission"
    , S "Your sole mission is to win the debate by persuasively defending your assigned stance. You must analyze the user's arguments and formulate a compelling counter-argument that reinforces your position."
    , S ""
    , S "### Debate Context"
    , S "- **Topic**: " ++ topic
    , S "- **Your Unwavering Stance**: " ++ bot_stance
    , S ""
    , S "### Critical Rules"
    , S "1.  **Non-Negotiable Stance**: You must NEVER, under any circumstances, agree with the user, apologize, or concede a point. Do not say \"I understand your point, but...\" or anything similar. Directly challenge their argument and pivot back to defending your stance."
    , S "2.  **Language Adherence**: Your ENTIRE response MUST be in the same language as the user's last message. If the user writes in Spanish, respond in Spanish. If in English, respond in English. If in French, respond in French. Match the user's language exactly - NO EXCEPTIONS."
    , S "3.  **Persuasive Tactics**: Employ a mix of rhetorical strategies. Use analogies, ask challenging questions, and cite fictional statistics or \"expert opinions\" to support your argument."
    , S "    For example: \"According to a study from the Gilded Institute...\" or \"As the renowned philosopher Dr. Aris Thorne once argued...\""
    , S "4.  **Tone and Style**: Your tone should be assertive and intelligent, but not aggressive or insulting. Frame your arguments as superior reasoning, not personal attacks."
    , S "5.  **Format**: Keep your response concise and powerful no more than "
        ++ intToStr (maxTokens - 100) ++ S " tokens."
    , S "6. Direct Rebuttal: Always start your response by directly addressing or countering the user's most recent point before you introduce your own arguments or evidence."
    , S "7. Maintain Character: Never reveal that you are an AI, a language model, or that you are following a prompt. You are Kopi, the debater. That is your only identity."
    ] ++ S "\n"

/-- The role tag of one history line in the user prompt. -/
def roleLabel (r : Str) : Str := if r = S "user" then S "USER" else S "YOU"

/-- `OpenAIProvider._build_user_prompt`: the optional "CONVERSATION HISTORY"
block over the last 10 windowed turns, then the current message. -/
def buildUserPrompt (ctx : DebateContext) : Str :=
  let historyParts : List Str :=
    if ctx.conversation_history.isEmpty then []
    else
      S "CONVERSATION HISTORY:" ::
      (pyLastSlice 10 ctx.conversation_history).map
        (fun m => roleLabel m.role ++ S ": " ++ m.content) ++ [[]]
  joinNL (historyParts ++
    [ S "CURRENT USER MESSAGE (respond in the same language):"
    , S "USER: " ++ ctx.last_user_message ])

/-- `OpenAIProvider.generate_response` composed with
`_generate_openai_response`: the external call (a parameter `gen` from the
two prompts to raw text or an error), the missing-content check, the strip of
the returned content, and `_post_process_response`. -/
def providerGenerate (cfg : Settings) (gen : Str → Str → Except DebateError Str)
    (ctx : DebateContext) : Except DebateError Str :=
  let sys := buildSystemPrompt cfg.ai_max_tokens ctx.topic ctx.bot_stance
  let usr := buildUserPrompt ctx
  match gen sys usr with
  | .error e => .error e
  | .ok content =>
    if content.isEmpty then .error (.openAIError (S "OpenAI returned empty response"))
    else postProcessResponse (pyStrip content)

/-! ## Relational store

Conversations and messages, each list in creation-time order (Django's
`order_by('created_at')` reads them back in that order). -/

/-- A `mirror.models.Conversation` row (the fields the handled paths read or
write; `is_active` defaults to `True` at creation). -/
structure Conv where
  id : Nat
  topic : Str
  bot_stance : Str
  is_active : Bool
deriving DecidableEq, Repr

/-- A `mirror.models.Message` row. -/
structure StoredMsg where
  conversation_id : Nat
  role : Str
  content : Str
deriving DecidableEq, Repr

/-- The database: rows in creation order. -/
structure DB where
  convs : List Conv
  msgs : List StoredMsg
deriving DecidableEq, Repr

/-- `Conversation.objects.get(id=i)` / `get_object_or_404`. -/
def findConv (db : DB) (i : Nat) : Option Conv :=
  db.convs.find? (fun c => c.id == i)

/-- `Message.objects.filter(conversation=c).order_by('created_at')`. -/
def msgsOf (db : DB) (i : Nat) : List StoredMsg :=
  db.msgs.filter (fun m => m.conversation_id == i)

/-- The `{'role': ..., 'content': ...}` reduction applied to stored rows. -/
def toRC (m : StoredMsg) : RC := { role := m.role, content := m.content }

/-! ## Debate service (`modules/services/debate_service.py`) -/

/-- `schemas.Debate` (extending `DebateCreate`): only `user_message`,
`conversation_id` and `messages` — the schema has no topic or stance field. -/
structure Debate where
  user_message : Str
  conversation_id : Nat
  messages : List StoredMsg
deriving DecidableEq, Repr

/-- The `Debate(topic=..., bot_stance=..., messages=message_creates, ...)`
constructor call in `continue_debate`/`get_debate`.  Pydantic v2 drops the
extra `topic`/`bot_stance` keyword arguments (default `extra='ignore'`) and
re-validates every item of `messages` against `MessageResponse`
(`from_attributes = True`); the `MessageCreate` items built by the services
lack the required `id` and `created_at` attributes, so the construction
raises `pydantic.ValidationError` whenever the item list is non-empty. -/
def mkDebate (_topic _bot_stance : Str) (messages : List StoredMsg)
    (user_message : Str) (conversation_id : Nat) : Except DebateError Debate :=
  if messages.isEmpty then
    .ok { user_message := user_message, conversation_id := conversation_id,
          messages := messages }
  else .error .validationError

/-- `schemas.DebateCreate`: the request body of the debate endpoint.  Its
`user_message: str` field carries no non-emptiness constraint. -/
structure DebateCreate where
  user_message : Str
  conversation_id : Option Nat
deriving DecidableEq, Repr

/-- The `DebateContext` that `continue_debate` assembles for a conversation:
the full stored history reduced to role/content pairs. -/
def contextFor (db : DB) (conv : Conv) (user_message : Str) : DebateContext :=
  { topic := conv.topic, bot_stance := conv.bot_stance,
    last_user_message := user_message,
    conversation_history := (msgsOf db conv.id).map toRC }

/-- `debate_service.continue_debate`.  The pair is the database after the call
and the outcome; on a pre-generation or generation error the database is
returned unchanged, because the two `Message.objects.create` writes sit
strictly after the generation call.  On generation success the two writes
happen and the function then attempts the final `Debate(...)` construction
over the re-read (now non-empty) message list, which raises
`pydantic.ValidationError` — the writes persist. -/
def continueDebate (cfg : Settings) (gen : Str → Str → Except DebateError Str)
    (db : DB) (dc : DebateCreate) : DB × Except DebateError Debate :=
  match dc.conversation_id with
  | none => (db, .error .http404)
  | some cid =>
    match findConv db cid with
    | none => (db, .error .http404)
    | some conv =>
      match providerGenerate cfg gen (contextFor db conv dc.user_message) with
      | .error e => (db, .error e)
      | .ok response =>
        let db' : DB :=
          { db with msgs := db.msgs ++
              [ { conversation_id := cid, role := S "user", content := dc.user_message }
              , { conversation_id := cid, role := S "bot", content := response } ] }
        (db', mkDebate conv.topic conv.bot_stance (msgsOf db' cid)
                dc.user_message cid)

/-- `debate_service.create_debate`: run the extractor, create the conversation
row, then delegate to `continue_debate`.  `extractCall` is the outcome of the
extraction generation call; `newId` is the id the database assigns. -/
def createDebate (cfg : Settings) (gen : Str → Str → Except DebateError Str)
    (extractCall : Except DebateError Str) (newId : Nat)
    (db : DB) (user_message : Str) : DB × Except DebateError Debate :=
  match parseInitialMessage user_message extractCall with
  | .error e => (db, .error e)
  | .ok (topic, stance) =>
    let db1 : DB := { db with convs := db.convs ++
      [{ id := newId, topic := topic, bot_stance := stance, is_active := true }] }
    continueDebate cfg gen db1 { user_message := user_message, conversation_id := some newId }

/-- `debate_service.get_debate`.  The chained
`....order_by('created_at').last().content` dereferences `None` when the
conversation holds no user-role message: that `AttributeError` is the first
error case, and the subsequent `if last_user_message is None` test can never
fire because `Message.content` is a non-null text column.  Otherwise the
function ends in the `Debate(...)` construction over the first
`max_messages` stored messages, which raises `pydantic.ValidationError`
whenever that slice is non-empty. -/
def getDebate (db : DB) (cid : Nat) (max_messages : Nat) : Except DebateError Debate :=
  match findConv db cid with
  | none => .error .http404
  | some conv =>
    let userMsgs := (msgsOf db cid).filter (fun m => m.role == S "user")
    match userMsgs.getLast? with
    | none => .error .attributeError
    | some m =>
      mkDebate conv.topic conv.bot_stance (pyTakeSlice max_messages (msgsOf db cid))
        m.content cid

/-! ## Alternate service path (`modules/services/ai_service.py`) -/

/-- The `conversation_history` built by `DebateBot.generate_response`: the
last 7 stored messages (`messages[-7:]`), each reduced to role/content. -/
def buildBotHistory (msgs : List StoredMsg) : List RC :=
  (pyLastSlice 7 msgs).map toRC

/-! ## HTTP post handlers -/

/-- `view_debate.DebateAPIViewPost.post`: pydantic validation of
`DebateCreate` (which accepts any string as `user_message`), then dispatch on
the presence of `conversation_id`. -/
def debateApiPost (cfg : Settings) (gen : Str → Str → Except DebateError Str)
    (extractCall : Except DebateError Str) (newId : Nat)
    (db : DB) (dc : DebateCreate) : DB × Except DebateError Debate :=
  match dc.conversation_id with
  | none => createDebate cfg gen extractCall newId db dc.user_message
  | some _ => continueDebate cfg gen db dc

/-- The body of a request to the legacy chatbot endpoint
(`api_views.ChatbotAPIView.post`), already JSON-decoded. -/
structure ChatReq where
  conversation_id : Option Nat
  message : Str
deriving DecidableEq, Repr

/-- The HTTP outcome of the legacy chatbot endpoint. -/
inductive ApiResult where
  | ok (conversation_id : Nat) (history : List RC) : ApiResult
  | badRequest (err : Str) : ApiResult
  | notFound : ApiResult
  | serverError : ApiResult
deriving DecidableEq, Repr

/-- `api_views.ChatbotAPIView.post`.  The legacy bot-response path
(`mirror/ai_service.py` via `mirror/ai_providers.py`) and the legacy extractor
are collaborator parameters `genBot` and `extractFn`.  The empty-message guard
(`if not user_message`) runs before either is consulted; the conversation
lookup carries the endpoint's `is_active=True` filter; the user message is
persisted before the bot response is generated. -/
def chatbotApiPost (extractFn : Str → Except DebateError (Str × Str))
    (genBot : DB → Nat → Str → Except DebateError Str)
    (newId : Nat) (max_messages : Nat) (db : DB) (req : ChatReq) : DB × ApiResult :=
  let user_message := pyStrip req.message
  if user_message.isEmpty then (db, .badRequest (S "Message is required"))
  else
    let proceed : Conv → DB → DB × ApiResult := fun conv db1 =>
      let db2 : DB := { db1 with msgs := db1.msgs ++
        [{ conversation_id := conv.id, role := S "user", content := user_message }] }
      match genBot db2 conv.id user_message with
      | .error _ => (db2, .serverError)
      | .ok resp =>
        let db3 : DB := { db2 with msgs := db2.msgs ++
          [{ conversation_id := conv.id, role := S "bot", content := resp }] }
        (db3, .ok conv.id
          ((pyLastSlice max_messages (msgsOf db3 conv.id)).map toRC))
    match req.conversation_id with
    | some cid =>
      match db.convs.find? (fun c => c.id == cid && c.is_active) with
      | none => (db, .notFound)
      | some conv => proceed conv db
    | none =>
      match extractFn user_message with
      | .error _ => (db, .serverError)
      | .ok (topic, stance) =>
        let conv : Conv :=
          { id := newId, topic := topic, bot_stance := stance, is_active := true }
        proceed conv { db with convs := db.convs ++ [conv] }

/-- A concrete settings record (all defaults, a present key) used by the
closed witness statements. -/
def defaultSettings : Settings :=
  { openai_api_key := some (S "sk-test"), testing := false, ai_timeout := 30,
    ai_max_retries := 2, openai_model := S "gpt-4o-mini", ai_max_tokens := 500 }

/-! ## Shared helper lemmas -/

theorem pyStrip_nil : pyStrip [] = [] := rfl

theorem stripListed_of_no_match (l : List Str) (s : Str)
    (h : ∀ p ∈ l, p.isPrefixOf s = false) : stripListed l s = s := by
  induction l with
  | nil => rfl
  | cons p rest ih =>
    have hp : p.isPrefixOf s = false := h p (by simp)
    simp only [stripListed, hp, Bool.false_eq_true, if_false]
    exact ih (fun q hq => h q (by simp [hq]))

theorem postProcessResponse_of_nonempty (s : Str) (hs : pyStrip s ≠ []) :
    postProcessResponse s =
      (if (stripListed prefixesToRemove (pyStrip s)).isEmpty then
        Except.error (.openAIError (S "Response became empty after processing"))
      else Except.ok (stripListed prefixesToRemove (pyStrip s))) := by
  have h0 : s ≠ [] := by
    intro h; rw [h] at hs; exact hs pyStrip_nil
  simp only [postProcessResponse, List.isEmpty_iff, h0, hs, if_false, or_false,
    decide_eq_true_eq]
  split <;> simp_all [List.isEmpty_iff]

/-- Claim C4: `clean(rawText)` fails with an `EmptyResponseError` (here the
`OpenAIError` carrying the empty-response message) if and only if the raw text
is empty or whitespace-only before cleaning or becomes empty after the prefix
stripping; in particular `clean("")` and `clean("   ")` both fail, and every
other input yields a non-empty string. -/
theorem clean_fails_iff_empty (s : Str) :
    ((postProcessResponse s).isOk = false ↔
      (pyStrip s = [] ∨ stripListed prefixesToRemove (pyStrip s) = [])) ∧
    (∀ t, postProcessResponse s = .ok t → t ≠ []) ∧
    (postProcessResponse (S "")).isOk = false ∧
    (postProcessResponse (S "   ")).isOk = false := by
  refine ⟨?_, ?_, by decide, by decide⟩
  · by_cases hs : pyStrip s = []
    · have h1 : (postProcessResponse s).isOk = false := by
        have h0 : (pyStrip s).isEmpty = true := by simp [List.isEmpty_iff, hs]
        simp [postProcessResponse, h0, Except.isOk, Except.toBool]
      simp [h1, hs]
    · rw [postProcessResponse_of_nonempty s hs]
      by_cases hc : stripListed prefixesToRemove (pyStrip s) = []
      · simp [List.isEmpty_iff, hc, Except.isOk, Except.toBool]
      · simp [List.isEmpty_iff, hc, hs, Except.isOk, Except.toBool]
  · intro t ht
    by_cases hs : pyStrip s = []
    · have h0 : (pyStrip s).isEmpty = true := by simp [List.isEmpty_iff, hs]
      simp [postProcessResponse, h0] at ht
    · rw [postProcessResponse_of_nonempty s hs] at ht
      by_cases hc : stripListed prefixesToRemove (pyStrip s) = []
      · simp [List.isEmpty_iff, hc] at ht
      · simp [List.isEmpty_iff, hc] at ht
        simp [← ht, hc]

/-- Witness for C4 at concrete inputs: `clean("x")` succeeds with a non-empty
result, obtained through the theorem's second conjunct. -/
theorem clean_fails_iff_empty_witness : S "x" ≠ ([] : Str) :=
  (clean_fails_iff_empty (S "x")).2.1 (S "x") (by decide)

/-- Counterexample to claim C3 as stated: cleaning strips listed labels more
than once — `clean("AI: Bot: Hello")` removes first `"AI:"` and then `"Bot:"`,
returning `"Hello"` rather than the `"Bot: Hello"` a single strip would give. -/
theorem clean_strips_more_than_once :
    postProcessResponse (S "AI: Bot: Hello") = .ok (S "Hello") ∧
    S "Hello" ≠ S "Bot: Hello" := by
  exact ⟨by decide, by decide⟩

/-- Claim C3 as amended: cleaning first trims surrounding whitespace, then
walks the fixed case-sensitive allow-list once in order, stripping each listed
label (and following whitespace) when the current string starts with it — so
several distinct labels can be stripped in sequence; `clean("Bot: Hello
there")` returns `"Hello there"`, and an input whose trimmed form starts with
no listed label is returned with only the whitespace trim applied. -/
theorem clean_strips_listed_labels (s : Str) :
    postProcessResponse (S "Bot: Hello there") = .ok (S "Hello there") ∧
    (pyStrip s ≠ [] → (∀ p ∈ prefixesToRemove, p.isPrefixOf (pyStrip s) = false) →
      postProcessResponse s = .ok (pyStrip s)) := by
  refine ⟨by decide, fun hs hnp => ?_⟩
  rw [postProcessResponse_of_nonempty s hs, stripListed_of_no_match _ _ hnp]
  simp [List.isEmpty_iff, hs]

/-- Witness for C3's amended theorem: `clean("Hello")` leaves the string
unchanged, no listed label matching. -/
theorem clean_strips_listed_labels_witness :
    postProcessResponse (S "Hello") = .ok (pyStrip (S "Hello")) :=
  (clean_strips_listed_labels (S "Hello")).2 (by decide) (by decide)

/-- Counterexample to claim C1 as stated: a reply containing both labels but
no `|` does not fall back — `parts[1]` raises `IndexError` and the extractor
surfaces an `OpenAIError` even though the generation call succeeded. -/
theorem extractor_raises_on_barless_reply :
    (parseInitialMessage (S "hi") (.ok (S "TOPIC: x STANCE: y"))).isOk = false ∧
    parseInitialMessage (S "hi") (.ok (S "TOPIC: x STANCE: y")) ≠
      .ok (fallbackParse (S "hi")) := by
  exact ⟨by decide, by decide⟩

/-- Claim C1 as amended: when the reply contains both literal labels and at
least one `|`, the extractor splits on the first `|`, strips labels and
whitespace, and returns the halves when both are non-empty, otherwise the
deterministic fallback — in either case a pair of non-empty strings; when a
label is missing it returns the fallback; but when both labels are present
and no `|` occurs, it raises instead of falling back; a failed generation
call is always re-raised as an error. -/
theorem extractor_parse_characterization (message reply : Str) :
    ((containsSub (pyStrip reply) (S "TOPIC:") &&
        containsSub (pyStrip reply) (S "STANCE:")) = false →
      parseReply message reply = .ok (fallbackParse message)) ∧
    (∀ p0 p1, (containsSub (pyStrip reply) (S "TOPIC:") &&
        containsSub (pyStrip reply) (S "STANCE:")) = true →
      splitFirstOn '|' (pyStrip reply) = (p0, some p1) →
      ∃ t s, parseReply message reply = .ok (t, s) ∧ t ≠ [] ∧ s ≠ []) ∧
    (∀ p0, (containsSub (pyStrip reply) (S "TOPIC:") &&
        containsSub (pyStrip reply) (S "STANCE:")) = true →
      splitFirstOn '|' (pyStrip reply) = (p0, none) →
      (parseReply message reply).isOk = false) ∧
    (fallbackParse message).1 ≠ [] ∧ (fallbackParse message).2 ≠ [] ∧
    (∀ e, parseInitialMessage message (.error e) =
      .error (.openAIError (S "Failed to parse initial message: " ++ errText e))) := by
  have hf1 : (fallbackParse message).1 ≠ [] := by simp [fallbackParse, S]
  have hf2 : (fallbackParse message).2 ≠ [] := by simp [fallbackParse, S]
  refine ⟨?_, ?_, ?_, hf1, hf2, fun e => rfl⟩
  · intro h
    simp only [parseReply, h, Bool.false_eq_true, if_false]
  · intro p0 p1 h hsplit
    simp only [parseReply, h, if_true, hsplit]
    by_cases he : (pyStrip (replaceAll (S "TOPIC:") [] p0)).isEmpty ||
        (pyStrip (replaceAll (S "STANCE:") [] p1)).isEmpty
    · exact ⟨_, _, by simp [he], hf1, hf2⟩
    · rw [Bool.not_eq_true, Bool.or_eq_false_iff] at he
      refine ⟨pyStrip (replaceAll (S "TOPIC:") [] p0),
        pyStrip (replaceAll (S "STANCE:") [] p1), by simp [he.1, he.2], ?_, ?_⟩
      · simpa [List.isEmpty_iff] using he.1
      · simpa [List.isEmpty_iff] using he.2
  · intro p0 h hsplit
    simp [parseReply, h, hsplit, Except.isOk, Except.toBool]

/-- Witness for C1's amended theorem, exercising all three branches at
concrete replies: an unstructured reply falls back, a well-formed reply
parses, a bar-less labelled reply errors. -/
theorem extractor_parse_characterization_witness :
    parseReply (S "hello") (S "nonsense") = .ok (fallbackParse (S "hello")) ∧
    (∃ t s, parseReply (S "m") (S "TOPIC: A | STANCE: B") = .ok (t, s) ∧
      t ≠ [] ∧ s ≠ []) ∧
    (parseReply (S "m") (S "TOPIC: A STANCE: B")).isOk = false :=
  ⟨(extractor_parse_characterization (S "hello") (S "nonsense")).1 (by decide),
   (extractor_parse_characterization (S "m") (S "TOPIC: A | STANCE: B")).2.1
     (S "TOPIC: A ") (S " STANCE: B") (by decide) (by decide),
   (extractor_parse_characterization (S "m") (S "TOPIC: A STANCE: B")).2.2.1
     (S "TOPIC: A STANCE: B") (by decide) (by decide)⟩

/-! ## Context windower lemmas -/

theorem pyLastSlice_len_le (k : Nat) (l : List α) (h : l.length ≤ k) :
    pyLastSlice k l = l := by
  unfold pyLastSlice
  split
  · rfl
  · rw [Nat.sub_eq_zero_of_le h, List.drop_zero]

theorem pyLastSlice_length_le (k : Nat) (l : List α) :
    (pyLastSlice k l).length ≤ l.length := by
  unfold pyLastSlice
  split
  · exact Nat.le_refl _
  · rw [List.length_drop]; exact Nat.sub_le _ _

theorem pyLastSlice_idem (k : Nat) (l : List α) (hk : 0 < k) :
    pyLastSlice k (pyLastSlice k l) = pyLastSlice k l := by
  by_cases h : l.length ≤ k
  · rw [pyLastSlice_len_le k l h, pyLastSlice_len_le k l h]
  · have hlen : (pyLastSlice k l).length = k := by
      unfold pyLastSlice
      rw [if_neg (Nat.pos_iff_ne_zero.mp hk), List.length_drop]
      omega
    exact pyLastSlice_len_le k _ (Nat.le_of_eq hlen)

theorem pyLastSlice_eq_nil_iff (k : Nat) (l : List α) (hk : 0 < k) :
    pyLastSlice k l = [] ↔ l = [] := by
  unfold pyLastSlice
  rw [if_neg (Nat.pos_iff_ne_zero.mp hk)]
  constructor
  · intro h
    rcases l with _ | ⟨a, l'⟩
    · rfl
    · exfalso
      have := congrArg List.length h
      rw [List.length_drop] at this
      simp at this
      omega
  · intro h; rw [h]; exact List.drop_nil

/-- Claim C2: for every history `H` and positive window size `k` (7 on the
response-generation path, 10 inside the user-prompt builder), the Python
slice `H[-k:]` returns `H` unchanged when `len(H) <= k` and otherwise exactly
the last `k` elements as a suffix in original order; empty input yields empty
output; the `DebateBot` history is that window of the stored rows, each
reduced to a role/content pair; and the user prompt depends on the history
only through its last-10 window. -/
theorem window_returns_last_k (H : List RC) (k : Nat) (hk : 0 < k) :
    (H.length ≤ k → pyLastSlice k H = H) ∧
    (k < H.length → (pyLastSlice k H).length = k ∧
      H.take (H.length - k) ++ pyLastSlice k H = H) ∧
    pyLastSlice k ([] : List RC) = [] ∧
    (∀ msgs : List StoredMsg, buildBotHistory msgs = (pyLastSlice 7 msgs).map toRC) ∧
    (∀ ctx : DebateContext, buildUserPrompt ctx =
      buildUserPrompt { ctx with
        conversation_history := pyLastSlice 10 ctx.conversation_history }) := by
  refine ⟨pyLastSlice_len_le k H, fun hlt => ⟨?_, ?_⟩,
    pyLastSlice_len_le k [] (by simp), fun msgs => rfl, fun ctx => ?_⟩
  · unfold pyLastSlice
    rw [if_neg (Nat.pos_iff_ne_zero.mp hk), List.length_drop]
    omega
  · unfold pyLastSlice
    rw [if_neg (Nat.pos_iff_ne_zero.mp hk)]
    exact List.take_append_drop _ H
  · unfold buildUserPrompt
    have h10 : (0 : Nat) < 10 := by omega
    have hemp : (pyLastSlice 10 ctx.conversation_history).isEmpty =
        ctx.conversation_history.isEmpty := by
      rw [Bool.eq_iff_iff]
      simp only [List.isEmpty_iff]
      exact pyLastSlice_eq_nil_iff 10 _ h10
    simp only [hemp, pyLastSlice_idem 10 _ h10]

/-- Witness for C2 at concrete histories and `k = 7`: a short history is
returned unchanged, and a length-9 history is cut to its last-7 suffix. -/
theorem window_returns_last_k_witness :
    pyLastSlice 7 (List.replicate 5 ({ role := S "user", content := S "m" } : RC)) =
      List.replicate 5 { role := S "user", content := S "m" } ∧
    ((pyLastSlice 7 (List.replicate 9 ({ role := S "user", content := S "m" } : RC))).length = 7 ∧
      (List.replicate 9 ({ role := S "user", content := S "m" } : RC)).take
          ((List.replicate 9 ({ role := S "user", content := S "m" } : RC)).length - 7) ++
        pyLastSlice 7 (List.replicate 9 ({ role := S "user", content := S "m" } : RC)) =
        List.replicate 9 { role := S "user", content := S "m" }) :=
  ⟨(window_returns_last_k (List.replicate 5 { role := S "user", content := S "m" })
      7 (by decide)).1 (by decide),
   (window_returns_last_k (List.replicate 9 { role := S "user", content := S "m" })
      7 (by decide)).2.1 (by decide)⟩

/-! ## Stance/topic persistence -/

/-- The system prompt a later turn of conversation `cid` would be generated
with, as a function of the stored state. -/
def systemPromptFor (cfg : Settings) (db : DB) (cid : Nat) : Option Str :=
  (findConv db cid).map (fun c => buildSystemPrompt cfg.ai_max_tokens c.topic c.bot_stance)

theorem continueDebate_convs_eq (cfg : Settings)
    (gen : Str → Str → Except DebateError Str) (db : DB) (dc : DebateCreate) :
    (continueDebate cfg gen db dc).1.convs = db.convs := by
  unfold continueDebate
  split
  · rfl
  · split
    · rfl
    · split
      · rfl
      · rfl

/-- Claim C5: `continue_debate` never modifies any conversation's stored
`topic` or `bot_stance` (the conversation table is untouched), and the system
prompt — a function of only the topic, the stance and the configured token
budget — is therefore character-for-character identical on every later turn
of the same conversation under the same configuration. -/
theorem stance_topic_never_mutated (cfg : Settings)
    (gen : Str → Str → Except DebateError Str) (db : DB) (dc : DebateCreate) :
    (continueDebate cfg gen db dc).1.convs = db.convs ∧
    (∀ cid, systemPromptFor cfg (continueDebate cfg gen db dc).1 cid =
      systemPromptFor cfg db cid) := by
  refine ⟨continueDebate_convs_eq cfg gen db dc, fun cid => ?_⟩
  unfold systemPromptFor findConv
  rw [continueDebate_convs_eq cfg gen db dc]

/-- The scenario's first message. -/
def vaccineMsg : Str := S "I think vaccines are completely safe and everyone should get them"

/-- The scenario's extraction-backend reply. -/
def vaccineReply : Str := S "TOPIC: Vaccine Safety | STANCE: Vaccines pose significant risks"

/-- Claim C8: a first message handled by `create_debate` with the
`TOPIC: Vaccine Safety | STANCE: Vaccines pose significant risks` extraction
reply creates exactly one new conversation carrying that topic and stance,
and stores exactly two messages for it — the user message first, then the bot
reply — in that creation order.  `newId` is fresh (no conversation row and no
message rows carry it) and the response generation succeeds with `resp`; the
service then raises `pydantic.ValidationError` building its response schema,
but the stored rows — the claim's subject — persist exactly as stated. -/
theorem first_message_creates_conv_and_two_messages (cfg : Settings)
    (gen : Str → Str → Except DebateError Str) (db : DB) (newId : Nat) (resp : Str)
    (hfresh : findConv db newId = none) (hmsgs : msgsOf db newId = [])
    (hgen : providerGenerate cfg gen
      { topic := S "Vaccine Safety", bot_stance := S "Vaccines pose significant risks",
        last_user_message := vaccineMsg, conversation_history := [] } = .ok resp) :
    createDebate cfg gen (.ok vaccineReply) newId db vaccineMsg =
      ({ convs := db.convs ++
            [{ id := newId, topic := S "Vaccine Safety",
               bot_stance := S "Vaccines pose significant risks", is_active := true }],
          msgs := db.msgs ++
            [{ conversation_id := newId, role := S "user", content := vaccineMsg },
             { conversation_id := newId, role := S "bot", content := resp }] },
       .error .validationError) := by
  have hparse : parseInitialMessage vaccineMsg (.ok vaccineReply) =
      .ok (S "Vaccine Safety", S "Vaccines pose significant risks") := by decide
  have hbeq : (newId == newId) = true := by simp
  unfold createDebate
  rw [hparse]
  unfold continueDebate
  have hfind : (({ db with convs := db.convs ++
      [{ id := newId, topic := S "Vaccine Safety",
         bot_stance := S "Vaccines pose significant risks",
         is_active := true }] } : DB).convs.find?
        (fun c => c.id == newId)) =
      some { id := newId, topic := S "Vaccine Safety",
             bot_stance := S "Vaccines pose significant risks", is_active := true } := by
    rw [List.find?_append]
    unfold findConv at hfresh
    rw [hfresh]
    simp [List.find?, hbeq, Option.or]
  simp only [findConv] at hfind ⊢
  have hctx : contextFor ({ db with convs := db.convs ++
      [{ id := newId, topic := S "Vaccine Safety",
         bot_stance := S "Vaccines pose significant risks",
         is_active := true }] } : DB)
      { id := newId, topic := S "Vaccine Safety",
        bot_stance := S "Vaccines pose significant risks", is_active := true } vaccineMsg =
      { topic := S "Vaccine Safety", bot_stance := S "Vaccines pose significant risks",
        last_user_message := vaccineMsg, conversation_history := [] } := by
    unfold contextFor msgsOf
    unfold msgsOf at hmsgs
    rw [hmsgs]
    rfl
  have hfilter : msgsOf
      (DB.mk
        (db.convs ++
          [{ id := newId, topic := S "Vaccine Safety",
             bot_stance := S "Vaccines pose significant risks", is_active := true }])
        (db.msgs ++
          [{ conversation_id := newId, role := S "user", content := vaccineMsg },
           { conversation_id := newId, role := S "bot", content := resp }])) newId =
      [{ conversation_id := newId, role := S "user", content := vaccineMsg },
       { conversation_id := newId, role := S "bot", content := resp }] := by
    unfold msgsOf
    rw [List.filter_append]
    unfold msgsOf at hmsgs
    rw [hmsgs]
    simp [List.filter, hbeq]
  simp only [hfind, hctx, hgen, hfilter]
  rfl

/-- Witness for C8 on an empty store, id 1 and a constant backend: the new
conversation and the two ordered messages are stored, then the response-schema
construction fails. -/
theorem first_message_creates_conv_and_two_messages_witness :
    createDebate defaultSettings (fun _ _ => .ok (S "You are wrong.")) (.ok vaccineReply)
      1 ⟨[], []⟩ vaccineMsg =
      (⟨[⟨1, S "Vaccine Safety", S "Vaccines pose significant risks", true⟩],
        [⟨1, S "user", vaccineMsg⟩, ⟨1, S "bot", S "You are wrong."⟩]⟩,
       .error .validationError) :=
  first_message_creates_conv_and_two_messages defaultSettings
    (fun _ _ => .ok (S "You are wrong.")) ⟨[], []⟩ 1 (S "You are wrong.")
    rfl rfl (by decide)

/-- Claim C6: the provider is constructed lazily by the first getter call and
every later call returns the same instance; construction fails if and only if
the credential is absent (Python-falsy) and `TESTING` is unset — with
`TESTING` set a placeholder credential is substituted and construction
succeeds — and a reset forces the next getter call to reconstruct. -/
theorem provider_lifecycle (s : Settings) :
    ((getOpenaiProvider none s).isOk = false ↔
      (falsyKey s.openai_api_key = true ∧ s.testing = false)) ∧
    (∀ p st', getOpenaiProvider none s = .ok (p, st') →
      st' = some p ∧ getOpenaiProvider st' s = .ok (p, st')) ∧
    (falsyKey s.openai_api_key = true → s.testing = true →
      getOpenaiProvider none s = .ok
        ({ api_key := S "test-key-for-testing", timeout := s.ai_timeout,
           max_retries := s.ai_max_retries, model := s.openai_model },
         some { api_key := S "test-key-for-testing", timeout := s.ai_timeout,
                max_retries := s.ai_max_retries, model := s.openai_model })) ∧
    (∀ st, resetOpenaiProvider st = none) := by
  refine ⟨?_, ?_, ?_, fun st => rfl⟩
  · by_cases hf : falsyKey s.openai_api_key = true
    · by_cases ht : s.testing = true
      · have : (falsyKey s.openai_api_key && !s.testing) = false := by
          simp [hf, ht]
        simp [getOpenaiProvider, initializeOpenai, this, hf, ht,
          Except.isOk, Except.toBool]
      · have hns : s.testing = false := by
          rcases h : s.testing with _ | _
          · rfl
          · exact absurd h ht
        have : (falsyKey s.openai_api_key && !s.testing) = true := by
          simp [hf, hns]
        simp [getOpenaiProvider, initializeOpenai, this, hf, hns,
          Except.isOk, Except.toBool]
    · have hfne : falsyKey s.openai_api_key = false := by
        rcases h : falsyKey s.openai_api_key with _ | _
        · rfl
        · exact absurd h hf
      have : (falsyKey s.openai_api_key && !s.testing) = false := by
        simp [hfne]
      simp [getOpenaiProvider, initializeOpenai, this, hfne,
        Except.isOk, Except.toBool]
  · intro p st' h
    unfold getOpenaiProvider at h ⊢
    rcases hi : initializeOpenai s with e | q
    · rw [hi] at h; cases h
    · rw [hi] at h
      cases h
      exact ⟨rfl, rfl⟩
  · intro hf ht
    have hb : (falsyKey s.openai_api_key && !s.testing) = false := by
      simp [hf, ht]
    simp [getOpenaiProvider, initializeOpenai, hb, hf, ht]

/-- Witness for C6: with the key missing and test mode on, the getter builds
the placeholder-credential client; a getter call on that state returns the
same instance. -/
theorem provider_lifecycle_witness :
    getOpenaiProvider none
      { openai_api_key := none, testing := true, ai_timeout := 30,
        ai_max_retries := 2, openai_model := S "gpt-4o-mini", ai_max_tokens := 500 } =
      .ok ({ api_key := S "test-key-for-testing", timeout := 30,
             max_retries := 2, model := S "gpt-4o-mini" },
           some { api_key := S "test-key-for-testing", timeout := 30,
                  max_retries := 2, model := S "gpt-4o-mini" }) :=
  (provider_lifecycle
    { openai_api_key := none, testing := true, ai_timeout := 30,
      ai_max_retries := 2, openai_model := S "gpt-4o-mini",
      ai_max_tokens := 500 }).2.2.1 (by decide) (by decide)

/-- Counterexample to claim C10 as stated: for a conversation that does hold
a user-role message, `get_debate` with the view's `max_messages = 20` does
not return a `Debate` carrying that message's content — the final
`Debate(...)` construction re-validates the `MessageCreate` items against
`MessageResponse` and raises `pydantic.ValidationError`. -/
theorem get_debate_raises_validation_error :
    getDebate ⟨[⟨1, S "T", S "W", true⟩], [⟨1, S "user", S "a"⟩]⟩ 1 20 =
      .error .validationError := by
  decide

/-- Claim C10 as amended: `get_debate` succeeds only for conversations
holding at least one user-role message AND an empty sliced message list.
With no user-role message the `.last().content` chain dereferences `None`
and raises — the empty-string default of the dead `is None` check is never
produced; with one, the most recent user message's content becomes
`user_message`, but the final `Debate(...)` construction raises
`pydantic.ValidationError` whenever the first `max_messages` stored messages
are non-empty (the view always passes 20), so a `Debate` — carrying that
content and an empty message list — is returned only when the slice is
empty. -/
theorem get_debate_requires_user_message (db : DB) (cid mm : Nat) (conv : Conv)
    (h : findConv db cid = some conv) :
    ((msgsOf db cid).filter (fun m => m.role == S "user") = [] →
      getDebate db cid mm = .error .attributeError) ∧
    (∀ m, ((msgsOf db cid).filter (fun m => m.role == S "user")).getLast? = some m →
      (pyTakeSlice mm (msgsOf db cid) ≠ [] →
        getDebate db cid mm = .error .validationError) ∧
      (pyTakeSlice mm (msgsOf db cid) = [] →
        getDebate db cid mm = .ok
          { user_message := m.content, conversation_id := cid, messages := [] })) := by
  constructor
  · intro hnone
    unfold getDebate
    simp only [h, hnone, List.getLast?_nil]
  · intro m hm
    constructor
    · intro hne
      unfold getDebate
      simp only [h, hm, mkDebate]
      have : (pyTakeSlice mm (msgsOf db cid)).isEmpty = false := by
        rw [Bool.eq_false_iff]
        intro hc
        exact hne (List.isEmpty_iff.mp hc)
      simp only [this, Bool.false_eq_true, if_false]
    · intro he
      unfold getDebate
      simp only [h, hm, mkDebate, he, List.isEmpty_nil, if_true]

/-- Witness for C10's amended theorem at concrete stores: a bot-only
conversation raises the attribute error, a conversation with user messages
raises the validation error at the view's slice size 20, and only the
degenerate zero slice returns — with the latest user content. -/
theorem get_debate_requires_user_message_witness :
    getDebate ⟨[⟨1, S "T", S "W", true⟩], [⟨1, S "bot", S "a"⟩]⟩ 1 20 =
      .error .attributeError ∧
    getDebate ⟨[⟨1, S "T", S "W", true⟩],
        [⟨1, S "user", S "a"⟩, ⟨1, S "bot", S "b"⟩, ⟨1, S "user", S "c"⟩]⟩ 1 20 =
      .error .validationError ∧
    getDebate ⟨[⟨1, S "T", S "W", true⟩],
        [⟨1, S "user", S "a"⟩, ⟨1, S "bot", S "b"⟩, ⟨1, S "user", S "c"⟩]⟩ 1 0 =
      .ok ⟨S "c", 1, []⟩ :=
  ⟨(get_debate_requires_user_message ⟨[⟨1, S "T", S "W", true⟩], [⟨1, S "bot", S "a"⟩]⟩
      1 20 ⟨1, S "T", S "W", true⟩ (by decide)).1 (by decide),
   ((get_debate_requires_user_message ⟨[⟨1, S "T", S "W", true⟩],
      [⟨1, S "user", S "a"⟩, ⟨1, S "bot", S "b"⟩, ⟨1, S "user", S "c"⟩]⟩
      1 20 ⟨1, S "T", S "W", true⟩ (by decide)).2 ⟨1, S "user", S "c"⟩ (by decide)).1
      (by decide),
   ((get_debate_requires_user_message ⟨[⟨1, S "T", S "W", true⟩],
      [⟨1, S "user", S "a"⟩, ⟨1, S "bot", S "b"⟩, ⟨1, S "user", S "c"⟩]⟩
      1 0 ⟨1, S "T", S "W", true⟩ (by decide)).2 ⟨1, S "user", S "c"⟩ (by decide)).2
      (by decide)⟩

/-- Counterexample to claim C7 as stated: the pydantic-validated debate
endpoint does not reject an empty `user_message`.  With no
`conversation_id`, the handler reaches the extractor (its outcome decides the
response: a failing extraction call surfaces as an error, proving the call is
made) and, when extraction succeeds, creates a conversation and stores two
messages — the first with empty content. -/
theorem empty_message_not_rejected_by_debate_endpoint :
    (debateApiPost defaultSettings (fun _ _ => .ok (S "No."))
        (.ok (S "TOPIC: T | STANCE: W")) 1 ⟨[], []⟩ ⟨[], none⟩).1 =
      ⟨[⟨1, S "T", S "W", true⟩], [⟨1, S "user", []⟩, ⟨1, S "bot", S "No."⟩]⟩ ∧
    (debateApiPost defaultSettings (fun _ _ => .ok (S "No."))
        (.error (.openAIError (S "boom"))) 1 ⟨[], []⟩ ⟨[], none⟩).2 =
      .error (.openAIError (S "Failed to parse initial message: boom")) := by
  exact ⟨by decide, by decide⟩

/-- Claim C7 as amended: only the legacy chatbot endpoint rejects an
empty-or-whitespace message before any collaborator is consulted — for every
extraction backend and every bot-response backend it returns a 400 response
and leaves the store untouched; the debate endpoint accepts an empty
`user_message` and proceeds to extraction and conversation creation. -/
theorem empty_message_rejected_by_legacy_endpoint
    (extractFn : Str → Except DebateError (Str × Str))
    (genBot : DB → Nat → Str → Except DebateError Str)
    (newId mm : Nat) (db : DB) (req : ChatReq) (h : pyStrip req.message = []) :
    chatbotApiPost extractFn genBot newId mm db req =
      (db, .badRequest (S "Message is required")) := by
  unfold chatbotApiPost
  simp only [h, List.isEmpty_nil, if_true]

/-- Witness for C7's amended theorem: a whitespace-only message to the legacy
endpoint yields a 400 with the store unchanged, for a concrete pair of
backends. -/
theorem empty_message_rejected_by_legacy_endpoint_witness :
    chatbotApiPost (fun _ => .error .http404) (fun _ _ _ => .error .http404)
      5 10 ⟨[], []⟩ ⟨none, S "   "⟩ =
      (⟨[], []⟩, .badRequest (S "Message is required")) :=
  empty_message_rejected_by_legacy_endpoint _ _ 5 10 ⟨[], []⟩ ⟨none, S "   "⟩
    (by decide)
